import Mathlib

/-!
# Verification of the jobhunt-ai ingestion-and-scoring pipeline

Shallow embedding of the core of `src/scripts/job_scraper.py`
(scraper engine V3.3): the `RateLimiter`, the `JobScorer` scoring
algorithm, the source-normalization of posting ages, and the
`FirebaseManager` deduplication/persistence layer.

Python strings are modelled as `List Char` (`Str`).  All inputs exercised
here are ASCII, for which `Char.toLower` agrees with Python `str.lower`
and `Char.toNat` agrees with `str.encode()` (UTF-8) byte values.
Python `a in b` on strings is substring containment (`List.isInfixOf`).
Firestore document snapshots are modelled as association lists keyed by
document id.  `DocumentSnapshot.get(field)` raises `KeyError` when the
field is absent (it returns `None` only for a present-but-null field), so
an optional document field is modelled as `Option (Option _)`: the outer
`none` is "field absent", `some none` is an explicit null.
-/

namespace JobHunt

set_option maxRecDepth 16384

/-- Python strings, modelled as lists of characters. -/
abbrev Str := List Char

/-- `str.lower()` (ASCII). -/
def lower (s : Str) : Str := s.map Char.toLower

/-- Python `needle in hay` for strings: substring containment. -/
def isSubstr (needle hay : Str) : Bool :=
  (List.range (hay.length + 1)).any (fun i => needle.isPrefixOf (hay.drop i))

/-- `str.strip()`: remove leading and trailing whitespace. -/
def pystrip (s : Str) : Str :=
  ((s.dropWhile Char.isWhitespace).reverse.dropWhile Char.isWhitespace).reverse

/-- `hay.find(needle)`: index of the first occurrence, or -1. -/
def pyfind (hay needle : Str) : Int :=
  match (List.range (hay.length + 1)).find? (fun i => needle.isPrefixOf (hay.drop i)) with
  | some i => (i : Int)
  | none => -1

/-- `str.split(sep)`, fuelled structural recursion (the fuel `s.length`
always suffices: each step consumes at least one character). -/
def splitOnAux (sep : Str) : Nat → Str → List Str
  | _, [] => [[]]
  | 0, s => [s]
  | fuel + 1, c :: rest =>
    if sep.isPrefixOf (c :: rest) ∧ 0 < sep.length then
      [] :: splitOnAux sep fuel (rest.drop (sep.length - 1))
    else
      match splitOnAux sep fuel rest with
      | [] => [[c]]
      | seg :: segs => (c :: seg) :: segs

/-- `str.split(sep)` for a non-empty separator (used with `" or "` and `"/"`). -/
def splitOnL (sep s : Str) : List Str := splitOnAux sep s.length s

/-- `str.split()` with no argument: split on whitespace runs, dropping empties. -/
def pysplitWS : Str → Str → List Str
  | [], acc => if acc = [] then [] else [acc.reverse]
  | c :: rest, acc =>
    if c.isWhitespace then
      if acc = [] then pysplitWS rest [] else acc.reverse :: pysplitWS rest []
    else pysplitWS rest (c :: acc)

/-- `' '.join(parts)`. -/
def joinSpace (parts : List Str) : Str := List.intercalate [' '] parts

/-- A regex word character, `[a-zA-Z0-9_]`. -/
def isWordChar (c : Char) : Bool := c.isAlphanum || c == '_'

/-- Whether position `i` of `s` holds a word character (out of range counts as non-word). -/
def wordAt (s : Str) (i : Nat) : Bool := isWordChar (s.getD i ' ')

/-- Whether position `i - 1` holds a word character (`i = 0` counts as non-word). -/
def wordBefore (s : Str) (i : Nat) : Bool := if i = 0 then false else wordAt s (i - 1)

/-- `\b` matches at position `i` of `s`. -/
def boundaryAt (s : Str) (i : Nat) : Bool := wordBefore s i != wordAt s i

/-- The literal `pat` occurs in `s` at position `i`. -/
def matchAt (pat s : Str) (i : Nat) : Bool := pat.isPrefixOf (s.drop i)

/-- The regex `\b pat \b` (with `pat` literal) matches at position `i` of `s`. -/
def wbMatchAt (pat s : Str) (i : Nat) : Bool :=
  matchAt pat s i && boundaryAt s i && boundaryAt s (i + pat.length)

/-- `re.search(rf'\b{pat}\b', s)` succeeds (for a literal `pat`). -/
def reSearchWB (pat s : Str) : Bool := (List.range (s.length + 1)).any (wbMatchAt pat s)

/-- `len(re.findall(rf'\b{pat}\b', s))`: non-overlapping left-to-right matches. -/
def countWBAux (pat s : Str) : Nat → Nat → Nat
  | 0, _ => 0
  | fuel + 1, i =>
    if i > s.length then 0
    else if wbMatchAt pat s i then 1 + countWBAux pat s fuel (i + max 1 pat.length)
    else countWBAux pat s fuel (i + 1)

/-- `len(re.findall(rf'\b{pat}\b', s))`. -/
def countWB (pat s : Str) : Nat := countWBAux pat s (s.length + 2) 0

/-- Fuelled helper for `pyset` (the fuel `l.length` always suffices). -/
def pysetAux : Nat → List Str → List Str
  | _, [] => []
  | 0, l => l
  | fuel + 1, x :: xs => x :: pysetAux fuel (xs.filter (fun y => ¬ (y == x)))

/-- First-occurrence deduplication, standing in for Python `list(set(xs))`
(CPython set iteration order is unspecified; no proved property depends on it). -/
def pyset (l : List Str) : List Str := pysetAux l.length l

/-- `', '.join(parts)`. -/
def joinCommaSpace (parts : List Str) : Str := List.intercalate [',', ' '] parts

/-- `str.title()` (ASCII): uppercase a letter that follows a non-cased
character, lowercase one that follows a cased character. -/
def pytitleAux : Bool → Str → Str
  | _, [] => []
  | prevCased, c :: rest =>
    (if prevCased then c.toLower else c.toUpper) :: pytitleAux c.isAlpha rest

/-- `str.title()` (ASCII). -/
def pytitle (s : Str) : Str := pytitleAux false s

/-! ## MD5 (`hashlib.md5`), over byte lists, 32-bit words as `Nat` mod `2^32` -/

/-- `2^32`. -/
def M32 : Nat := 4294967296

/-- 32-bit addition. -/
def add32 (a b : Nat) : Nat := (a + b) % M32

/-- 32-bit bitwise complement (arguments below `2^32`). -/
def not32 (a : Nat) : Nat := (M32 - 1) - a % M32

/-- 32-bit left rotation. -/
def rotl32 (x n : Nat) : Nat := ((x * 2 ^ n) % M32) ||| (x % M32 / 2 ^ (32 - n))

/-- MD5 round constants `K[i] = floor(2^32 * |sin(i+1)|)`. -/
def md5K : List Nat :=
  [3614090360, 3905402710, 606105819, 3250441966, 4118548399, 1200080426,
   2821735955, 4249261313, 1770035416, 2336552879, 4294925233, 2304563134,
   1804603682, 4254626195, 2792965006, 1236535329, 4129170786, 3225465664,
   643717713, 3921069994, 3593408605, 38016083, 3634488961, 3889429448,
   568446438, 3275163606, 4107603335, 1163531501, 2850285829, 4243563512,
   1735328473, 2368359562, 4294588738, 2272392833, 1839030562, 4259657740,
   2763975236, 1272893353, 4139469664, 3200236656, 681279174, 3936430074,
   3572445317, 76029189, 3654602809, 3873151461, 530742520, 3299628645,
   4096336452, 1126891415, 2878612391, 4237533241, 1700485571, 2399980690,
   4293915773, 2240044497, 1873313359, 4264355552, 2734768916, 1309151649,
   4149444226, 3174756917, 718787259, 3951481745]

/-- MD5 per-round left-rotation amounts. -/
def md5S : List Nat :=
  [7, 12, 17, 22, 7, 12, 17, 22, 7, 12, 17, 22, 7, 12, 17, 22,
   5, 9, 14, 20, 5, 9, 14, 20, 5, 9, 14, 20, 5, 9, 14, 20,
   4, 11, 16, 23, 4, 11, 16, 23, 4, 11, 16, 23, 4, 11, 16, 23,
   6, 10, 15, 21, 6, 10, 15, 21, 6, 10, 15, 21, 6, 10, 15, 21]

/-- Little-endian byte decomposition of `n` into `k` bytes. -/
def leBytes (n k : Nat) : List Nat := (List.range k).map (fun i => n / 2 ^ (8 * i) % 256)

/-- MD5 padding: append `0x80`, zero bytes to 56 mod 64, then the bit length
as a 64-bit little-endian integer. -/
def md5pad (msg : List Nat) : List Nat :=
  let len := msg.length
  let z := (120 - (len + 1) % 64) % 64
  msg ++ [128] ++ List.replicate z 0 ++ leBytes (8 * len) 8

/-- Fuelled helper for `chunks64` (the fuel `l.length` always suffices). -/
def chunks64Aux : Nat → List Nat → List (List Nat)
  | _, [] => []
  | 0, _ => []
  | fuel + 1, b :: rest => (b :: rest).take 64 :: chunks64Aux fuel ((b :: rest).drop 64)

/-- Split a byte list into 64-byte chunks. -/
def chunks64 (l : List Nat) : List (List Nat) := chunks64Aux l.length l

/-- The sixteen little-endian 32-bit message words of one 64-byte chunk. -/
def md5Words (chunk : List Nat) : List Nat :=
  (List.range 16).map (fun j =>
    chunk.getD (4 * j) 0 + chunk.getD (4 * j + 1) 0 * 256 +
    chunk.getD (4 * j + 2) 0 * 65536 + chunk.getD (4 * j + 3) 0 * 16777216)

/-- One of the 64 MD5 rounds, acting on the working state `(A, B, C, D)`. -/
def md5Round (m : List Nat) (st : Nat × Nat × Nat × Nat) (i : Nat) : Nat × Nat × Nat × Nat :=
  let (a, b, c, d) := st
  let fg : Nat × Nat :=
    if i < 16 then ((b &&& c) ||| (not32 b &&& d), i)
    else if i < 32 then ((d &&& b) ||| (not32 d &&& c), (5 * i + 1) % 16)
    else if i < 48 then (b ^^^ c ^^^ d, (3 * i + 5) % 16)
    else (c ^^^ (b ||| not32 d), (7 * i) % 16)
  let f := add32 (add32 (add32 fg.1 a) (md5K.getD i 0)) (m.getD fg.2 0)
  (d, add32 b (rotl32 f (md5S.getD i 0)), b, c)

/-- Process one 64-byte chunk, updating the digest state. -/
def md5Chunk (st : Nat × Nat × Nat × Nat) (chunk : List Nat) : Nat × Nat × Nat × Nat :=
  let w := md5Words chunk
  let r := (List.range 64).foldl (md5Round w) st
  (add32 st.1 r.1, add32 st.2.1 r.2.1, add32 st.2.2.1 r.2.2.1, add32 st.2.2.2 r.2.2.2)

/-- MD5 digest of a byte list, as 16 bytes. -/
def md5Bytes (msg : List Nat) : List Nat :=
  let st := (chunks64 (md5pad msg)).foldl md5Chunk
    (1732584193, 4023233417, 2562383102, 271733878)
  leBytes st.1 4 ++ leBytes st.2.1 4 ++ leBytes st.2.2.1 4 ++ leBytes st.2.2.2 4

/-- Lowercase hexadecimal digit. -/
def hexDigit (n : Nat) : Char := "0123456789abcdef".toList.getD n '0'

/-- Lowercase hex string of a byte list. -/
def toHex (bytes : List Nat) : Str :=
  bytes.flatMap (fun b => [hexDigit (b / 16), hexDigit (b % 16)])

/-- `hashlib.md5(s.encode()).hexdigest()` for an ASCII string. -/
def md5hex (s : Str) : Str := toHex (md5Bytes (s.map Char.toNat))

/-! ## RateLimiter (job_scraper.py lines 236-264)

Wall-clock instants and durations are rationals.  `asyncio.sleep` is
modelled as taking exactly the requested duration (the real call only
guarantees a minimum, which can only lengthen the gaps bounded below
here).  The jitter factor drawn by `random.uniform(0.9, 1.1)` is passed
in explicitly. -/

structure RateLimiter where
  delay : ℚ
  last_call : ℚ
  consecutive_errors : ℕ
deriving DecidableEq

/-- `RateLimiter.__init__(calls_per_second)`. -/
def RateLimiter.init (calls_per_second : ℚ) : RateLimiter :=
  { delay := 1 / calls_per_second, last_call := 0, consecutive_errors := 0 }

/-- `RateLimiter.wait()`, issued at instant `now` with jitter draw `j`.
The updated `last_call` is the instant the call is granted. -/
def RateLimiter.wait (rl : RateLimiter) (now j : ℚ) : RateLimiter :=
  let time_since_last := now - rl.last_call
  if time_since_last < rl.delay then
    { rl with last_call := now + (rl.delay - time_since_last) * j }
  else
    { rl with last_call := now }

/-- `RateLimiter.record_error()`. -/
def RateLimiter.record_error (rl : RateLimiter) : RateLimiter :=
  let e := rl.consecutive_errors + 1
  if 3 < e then { rl with consecutive_errors := e, delay := min (rl.delay * (3 / 2)) 10 }
  else { rl with consecutive_errors := e }

/-- `RateLimiter.record_success()`. -/
def RateLimiter.record_success (rl : RateLimiter) : RateLimiter :=
  if 0 < rl.consecutive_errors then
    { rl with consecutive_errors := 0, delay := max (rl.delay * (9 / 10)) (1 / 2) }
  else rl

/-- A sequence of `wait` calls: each element is `(now, jitter)`. -/
def runWaits (rl : RateLimiter) (calls : List (ℚ × ℚ)) : RateLimiter :=
  calls.foldl (fun s c => s.wait c.1 c.2) rl

/-- Well-formed call trace: each call is issued no earlier than the previous
grant, and each jitter draw lies in `random.uniform(0.9, 1.1)`'s range. -/
def validCalls : RateLimiter → List (ℚ × ℚ) → Bool
  | _, [] => true
  | rl, c :: cs =>
    decide (rl.last_call ≤ c.1) && decide (9 / 10 ≤ c.2) && decide (c.2 ≤ 11 / 10) &&
      validCalls (rl.wait c.1 c.2) cs

/-- An error/success event fed to the limiter. -/
inductive RLEvent
  | err
  | succ
deriving DecidableEq

/-- Apply one `record_error` / `record_success` event. -/
def RateLimiter.event (rl : RateLimiter) : RLEvent → RateLimiter
  | .err => rl.record_error
  | .succ => rl.record_success

/-- Apply a sequence of error/success events. -/
def runEvents (rl : RateLimiter) (evs : List RLEvent) : RateLimiter :=
  evs.foldl RateLimiter.event rl

/-! ## JobScorer (job_scraper.py lines 340-708)

A fetched posting dict.  `title` and `company` are accessed with
`job['...']` (always present); the remaining fields are read through
`job.get(...)` with a default, modelled as `Option`.  Every producer in
the repository stores `posted_days_ago` as a number (the `_safe_get_days_ago`
branch that parses an ISO string is never reached by in-repo data and is
not modelled). -/

structure Job where
  title : Str
  company : Str
  link : Str := []
  source : Str := []
  location : Option Str := none
  description : Option Str := none
  requirements : Option (List Str) := none
  salary : Option Str := none
  posted_days_ago : Option Int := none
deriving DecidableEq

/-- A user search profile as read by `calculate_score` through `profile.get`. -/
structure Profile where
  keywords : List Str := []
  seniority : List Str := []
  locations : List Str := []
  excludeKeywords : List Str := []
deriving DecidableEq

/-- The scorer's output dict.  `rejection_reason := none` models the key
being absent from the accepted-result dict. -/
structure ScoreResult where
  score : Nat
  flags : List Str
  seniority : Str
  matched_keywords : List Str
  location_match : Bool
  days_ago : Int
  rejected : Bool
  rejection_reason : Option Str := none
deriving DecidableEq

/-- `JobScorer.USA_LOCATIONS` (lines 344-351). -/
def USA_LOCATIONS : List Str :=
  ["united states", "usa", "us", "remote", "anywhere", "distributed",
   "california", "new york", "texas", "florida", "washington",
   "san francisco", "bay area", "los angeles", "seattle", "austin",
   "boston", "chicago", "denver", "portland", "san diego",
   "miami", "atlanta", "philadelphia", "detroit", "phoenix",
   "north america", "cambridge", "palo alto", "mountain view"].map String.toList

/-- `JobScorer.EXCLUDED_LOCATIONS` (lines 354-364). -/
def EXCLUDED_LOCATIONS : List Str :=
  ["berlin", "germany", "europe", "uk", "london", "paris", "france",
   "amsterdam", "netherlands", "spain", "madrid", "barcelona",
   "italy", "rome", "sweden", "stockholm", "denmark", "copenhagen",
   "norway", "oslo", "switzerland", "zurich", "austria", "vienna",
   "poland", "warsaw", "czech", "prague", "hungary", "budapest",
   "asia", "china", "japan", "singapore", "india", "bangalore",
   "canada", "toronto", "vancouver", "montreal", "australia", "sydney",
   "latam", "brazil", "mexico", "apac", "emea", "dubai", "uae",
   "tel aviv", "israel", "auckland", "new zealand", "south africa"].map String.toList

/-- `JobScorer.US_STATE_CODES` (lines 367-373). -/
def US_STATE_CODES : List Str :=
  ["al", "ak", "az", "ar", "ca", "co", "ct", "de", "fl", "ga",
   "hi", "id", "il", "in", "ia", "ks", "ky", "la", "me", "md",
   "ma", "mi", "mn", "ms", "mo", "mt", "ne", "nv", "nh", "nj",
   "nm", "ny", "nc", "nd", "oh", "ok", "or", "pa", "ri", "sc",
   "sd", "tn", "tx", "ut", "vt", "va", "wa", "wv", "wi", "wy", "dc"].map String.toList

/-- The verbatim remote terms of `check_segment` step 1 (line 395). -/
def remote_terms : List Str :=
  ["remote", "anywhere", "distributed", "global", "united states", "usa", "us",
   "u.s."].map String.toList

/-- `check_segment` inside `_is_usa_location` (lines 393-418). -/
def check_segment (seg : Str) : Bool :=
  if remote_terms.any (fun term => term == seg) then true
  else if EXCLUDED_LOCATIONS.any (fun excluded => isSubstr excluded seg) then false
  else if USA_LOCATIONS.any (fun usa_loc => isSubstr usa_loc seg) then true
  else if US_STATE_CODES.any (fun state => reSearchWB state seg) then true
  else false

/-- Segment splitting of `_is_usa_location` step 0 (lines 384-390): the first
separator among `" or "`, `"/"` that occurs is used; otherwise the whole
string is one segment. -/
def locationSegments (location_lower : Str) : List Str :=
  if isSubstr " or ".toList location_lower then
    (splitOnL " or ".toList location_lower).map pystrip
  else if isSubstr "/".toList location_lower then
    (splitOnL "/".toList location_lower).map pystrip
  else [location_lower]

/-- `JobScorer._is_usa_location` (lines 376-427). -/
def is_usa_location (location : Str) : Bool :=
  if location = [] then true
  else (locationSegments (pystrip (lower location))).any check_segment

/-- `JobScorer._safe_get_days_ago` (lines 429-446): `job.get('posted_days_ago', 999)`. -/
def safe_get_days_ago (job : Job) : Int := job.posted_days_ago.getD 999

/-- The pattern table of `_extract_seniority` (lines 673-682). -/
def seniority_patterns : List (List Str × Str) :=
  [(["vp", "vice president", "head of", "director", "chief", "exec"].map String.toList,
    "executive".toList),
   (["principal", "distinguished", "fellow"].map String.toList, "principal".toList),
   (["staff", "senior staff"].map String.toList, "staff".toList),
   (["senior", "sr.", "sr "].map String.toList, "senior".toList),
   (["lead", "tech lead", "engineering lead", "manager"].map String.toList, "lead".toList),
   (["mid", "mid-level", "experienced"].map String.toList, "mid".toList),
   (["junior", "jr.", "entry", "associate", "new grad"].map String.toList, "junior".toList),
   (["intern", "internship"].map String.toList, "intern".toList)]

/-- `JobScorer._extract_seniority` (lines 670-687). -/
def extract_seniority (title : Str) : Str :=
  let t := lower title
  match seniority_patterns.find? (fun p => p.1.any (fun pat => isSubstr pat t)) with
  | some p => p.2
  | none => "mid".toList

/-- The shorthand table of `_is_location_match` (lines 691-698). -/
def location_mappings : List (Str × Str) :=
  [("sf".toList, "san francisco".toList),
   ("bay area".toList, "san francisco".toList),
   ("nyc".toList, "new york".toList),
   ("la".toList, "los angeles".toList),
   ("austin".toList, "texas".toList),
   ("seattle".toList, "washington".toList)]

/-- `JobScorer._is_location_match` (lines 689-707). -/
def is_location_match (target_loc job_loc : Str) : Bool :=
  if isSubstr target_loc job_loc then true
  else location_mappings.any (fun m =>
    (target_loc == m.1 && isSubstr m.2 job_loc) || (target_loc == m.2 && isSubstr m.1 job_loc))

/-- Fuelled helper for `digitRuns` (the fuel `s.length` always suffices). -/
def digitRunsAux : Nat → Str → List Str
  | _, [] => []
  | 0, _ => []
  | fuel + 1, c :: rest =>
    if c.isDigit then
      (c :: rest.takeWhile Char.isDigit) :: digitRunsAux fuel (rest.dropWhile Char.isDigit)
    else digitRunsAux fuel rest

/-- `re.findall(r'[0-9]+', s)`: maximal digit runs. -/
def digitRuns (s : Str) : List Str := digitRunsAux s.length s

/-- `int(s)` for a digit string. -/
def digitsToNat (s : Str) : Nat := s.foldl (fun acc c => acc * 10 + (c.toNat - 48)) 0

/-- `SalaryFinder.extract_range` (lines 320-334). -/
def extract_range (salary_str : Str) : Option (Nat × Nat) :=
  if salary_str = [] then none
  else
    let numbers := digitRuns (salary_str.filter (fun c => ¬ (c == ',')))
    if numbers.length < 2 then none
    else
      let nums := (numbers.take 2).map digitsToNat
      let nums := if (lower salary_str).contains 'k' then nums.map (· * 1000) else nums
      some (min (nums.getD 0 0) (nums.getD 1 0), max (nums.getD 0 0) (nums.getD 1 0))

/-- Accumulator of the keyword loop (lines 475-513). -/
structure KwRes where
  keyword_score : Nat
  matched_keywords : List Str
deriving DecidableEq

/-- One iteration of the keyword loop (lines 478-513). -/
def kwStep (title_lower description_lower requirements_lower : Str)
    (acc : KwRes) (kw : Str) : KwRes :=
  let kw_lower := lower kw
  if isSubstr kw_lower title_lower then
    { keyword_score := acc.keyword_score + (if kw_lower.contains ' ' then 30 else 10),
      matched_keywords := acc.matched_keywords ++ [kw] }
  else if kw_lower.contains ' ' then
    let words := pysplitWS kw_lower []
    let matched_words := words.filter (fun word => isSubstr word title_lower)
    if matched_words ≠ [] then
      { keyword_score := acc.keyword_score + 5 * matched_words.length,
        matched_keywords := acc.matched_keywords ++ [kw] }
    else if isSubstr kw_lower description_lower then
      { keyword_score := acc.keyword_score +
          (if isSubstr kw_lower requirements_lower then 12 else 6),
        matched_keywords := acc.matched_keywords ++ [kw] }
    else acc
  else if isSubstr kw_lower description_lower then
    { keyword_score := acc.keyword_score +
        (if isSubstr kw_lower requirements_lower then 12 else 6),
      matched_keywords := acc.matched_keywords ++ [kw] }
  else acc

/-- The whole keyword loop. -/
def kwFold (title_lower description_lower requirements_lower : Str)
    (keywords : List Str) : KwRes :=
  keywords.foldl (kwStep title_lower description_lower requirements_lower) ⟨0, []⟩

/-- `f"{x}"` applied to an optional string (`None` prints as `None`). -/
def optStr : Option Str → Str
  | some s => s
  | none => "None".toList

/-- Decimal rendering of a natural number. -/
def natToStr (n : Nat) : Str := (Nat.repr n).toList

/-- `COMPANY_TIERS['tier_s']` (line 228). -/
def tier_s : List Str :=
  ["OpenAI", "Anthropic", "Google", "Meta", "Apple", "Stripe", "Airbnb", "Netflix",
   "Nvidia", "SpaceX", "Databricks"].map String.toList

/-- `COMPANY_TIERS['tier_a']` (line 229). -/
def tier_a : List Str :=
  ["Scale AI", "Figma", "Notion", "Uber", "Lyft", "Coinbase", "Rippling", "DoorDash",
   "Snowflake", "Datadog", "Spotify"].map String.toList

/-- The rejection dict of the USA-location gate (lines 462-472). -/
def rejectNonUSA (job : Job) : ScoreResult :=
  { score := 0, flags := ["❌ Non-USA location".toList], seniority := "unknown".toList,
    matched_keywords := [], location_match := false, days_ago := 999, rejected := true,
    rejection_reason := some ("Non-USA location: ".toList ++ optStr job.location) }

/-- The rejection dict of the strict keyword filter (lines 519-529). -/
def rejectNoKeyword (job : Job) (detected_seniority : Str) (days_ago : Int) : ScoreResult :=
  { score := 0, flags := ["⚠️ No keyword match".toList], seniority := detected_seniority,
    matched_keywords := [], location_match := false, days_ago := days_ago, rejected := true,
    rejection_reason := some ("Strict filter: Title \x27".toList ++ job.title ++
      "\x27 did not match any keywords.".toList) }

/-- One iteration of the negative-keyword loop (lines 608-645): `some reason`
when the loop returns a rejection dict for this keyword, `none` when it
falls through to the next keyword. -/
def negCheckOne (title_lower description_lower : Str) (neg_kw : Str) : Option Str :=
  let neg_kw_lower := pystrip (lower neg_kw)
  if isSubstr neg_kw_lower title_lower then
    some ("Title contains negative keyword: ".toList ++ neg_kw)
  else if reSearchWB neg_kw_lower description_lower then
    let occurrences := countWB neg_kw_lower description_lower
    let first_occurrence := pyfind description_lower neg_kw_lower
    if 3 ≤ occurrences ∨ first_occurrence < 200 then
      some ("Description emphasizes negative keyword: ".toList ++ neg_kw ++
        " (".toList ++ natToStr occurrences ++ "x)".toList)
    else none
  else none

/-- The negative-keyword loop: the first keyword that triggers a rejection wins. -/
def negCheck (title_lower description_lower : Str) : List Str → Option Str
  | [] => none
  | n :: rest =>
    match negCheckOne title_lower description_lower n with
    | some r => some r
    | none => negCheck title_lower description_lower rest

/-- Scoring steps 2-8 plus the low-score floor and the accepted result
(lines 531-668), reached only after the location gate and the strict
keyword filter have passed. -/
def scoreRest (job : Job) (profile : Profile)
    (title_lower location_lower description_lower : Str)
    (detected_seniority : Str) (days_ago : Int) (kwres : KwRes) : ScoreResult :=
  let company := job.company
  let score1 := min kwres.keyword_score 50
  let flags1 : List Str :=
    if kwres.matched_keywords ≠ [] then
      ["Keywords: ".toList ++ joinCommaSpace ((pyset kwres.matched_keywords).take 3)]
    else []
  -- 2. seniority
  let senBonus : Nat × List Str :=
    if profile.seniority.contains detected_seniority then
      (25, ["Level: ".toList ++ pytitle detected_seniority])
    else if profile.seniority = [] then (15, [])
    else (0, [])
  -- 3. location targets
  let locHit := profile.locations.find? (fun loc =>
    let loc_lower := lower loc
    isSubstr loc_lower location_lower || isSubstr loc_lower description_lower ||
      is_location_match loc_lower location_lower)
  let location_match := locHit.isSome
  let locBonus : Nat × List Str :=
    match locHit with
    | some loc => (15, ["Location: ".toList ++ pytitle loc])
    | none => if profile.locations = [] then (10, []) else (0, [])
  -- 4. company tier
  let tierBonus : Nat × List Str :=
    if tier_s.contains company then (20, ["🌟 Top Tier".toList])
    else if tier_a.contains company then (15, ["⭐ High Growth".toList])
    else (5, [])
  -- 5. salary transparency
  let salBonus : Nat × List Str :=
    match job.salary with
    | some s =>
      if s ≠ [] then
        match extract_range s with
        | some r =>
          if 150000 < r.2 then (8, ["💰 ".toList ++ s, "💵 High Salary".toList])
          else (5, ["💰 ".toList ++ s])
        | none => (5, ["💰 ".toList ++ s])
      else (0, [])
    | none => (0, [])
  -- 6. freshness
  let freshBonus : Nat × List Str :=
    if days_ago ≤ 1 then (8, ["🔥 Just Posted".toList])
    else if days_ago ≤ 3 then (6, ["🆕 Very Fresh".toList])
    else if days_ago ≤ 7 then (4, ["🆕 Fresh".toList])
    else if days_ago ≤ 14 then (2, ["📅 Recent".toList])
    else (0, [])
  -- 7. remote friendly
  let remoteBonus : Nat × List Str :=
    if (["remote", "anywhere", "distributed", "virtual"].map String.toList).any
        (fun remote_term =>
          isSubstr remote_term location_lower || isSubstr remote_term description_lower) then
      (5, ["🏠 Remote Friendly".toList])
    else (0, [])
  let score := score1 + senBonus.1 + locBonus.1 + tierBonus.1 + salBonus.1 +
    freshBonus.1 + remoteBonus.1
  let flags := flags1 ++ senBonus.2 ++ locBonus.2 ++ tierBonus.2 ++ salBonus.2 ++
    freshBonus.2 ++ remoteBonus.2
  -- 8. negative keyword filter
  match negCheck title_lower description_lower profile.excludeKeywords with
  | some reason =>
    { score := 0, flags := flags, seniority := detected_seniority,
      matched_keywords := kwres.matched_keywords, location_match := location_match,
      days_ago := days_ago, rejected := true, rejection_reason := some reason }
  | none =>
    if score < 15 then
      { score := 0, flags := ["⚠️ Low relevance".toList], seniority := detected_seniority,
        matched_keywords := kwres.matched_keywords, location_match := false,
        days_ago := days_ago, rejected := true, rejection_reason := some "Low score".toList }
    else
      { score := min score 100, flags := flags, seniority := detected_seniority,
        matched_keywords := kwres.matched_keywords, location_match := location_match,
        days_ago := days_ago, rejected := false, rejection_reason := none }

/-- `JobScorer.calculate_score` (lines 449-668). -/
def calculate_score (job : Job) (profile : Profile) : ScoreResult :=
  let title_lower := lower job.title
  let location_lower := lower (job.location.getD [])
  let description_lower := lower (job.description.getD [])
  let detected_seniority := extract_seniority title_lower
  let days_ago := safe_get_days_ago job
  if ¬ is_usa_location (job.location.getD []) then rejectNonUSA job
  else
    let requirements_lower := lower (joinSpace (job.requirements.getD []))
    let kwres := kwFold title_lower description_lower requirements_lower profile.keywords
    if kwres.matched_keywords.isEmpty then rejectNoKeyword job detected_seniority days_ago
    else scoreRest job profile title_lower location_lower description_lower
      detected_seniority days_ago kwres

/-! ## Source normalization of posting ages (ScraperFactory, lines 1554-1754)

Only the `posted_days_ago` computation is modelled; HTTP transport, JSON
decoding and HTML extraction are I/O plumbing outside the shallow
embedding.  Timestamps are pre-parsed day numbers: `parsedUpdatedAt` is
`none` when the source omitted the field or `datetime.fromisoformat`
failed (both take the same branch in the code). -/

/-- `_fetch_greenhouse` (lines 1598-1611): `posted_days_ago` starts at 0 and
is only changed when a parseable `updated_at` is present. -/
def greenhouse_posted_days_ago (parsedUpdatedAt : Option Int) (nowDay : Int) : Int :=
  match parsedUpdatedAt with
  | none => 0
  | some d => nowDay - d

/-- `_fetch_ashby` (line 1682): the normalized posting dict, with
`posted_days_ago` hard-coded to 0 (the source comment reads
"Ashby doesn't provide posting date"). -/
def normalize_ashby (title : Str) (location : Option Str) (jobUrl company : Str)
    (description : Str) (requirements : List Str) (salary : Option Str) : Job :=
  { title := title, company := company, location := some (location.getD "Remote".toList),
    link := jobUrl, source := "Ashby".toList, description := some description,
    requirements := some requirements, salary := salary, posted_days_ago := some 0 }

/-! ## FirebaseManager (job_scraper.py lines 1221-1379)

The Firestore `jobs` and `user_job_matches` collections are association
lists from document id to document.  `batch.set(..., merge=True)` is an
upsert by document id; the written job dict contains every modelled
`JobDoc` field except `postedAt`, so merge semantics preserve an existing
`postedAt` and overwrite everything else.  `DocumentSnapshot.get` on a
field the document lacks raises `KeyError`; inside `check_job_exists`
this lands in the blanket `except` (lines 1293-1295), which returns
`False`.  Server timestamps are the day number `now`.
Writes are staged in a batch and only become visible to reads once the
batch commits (every 200 entries and at the end), exactly as in the code;
the in-memory `job_id_cache` is what makes within-run reads see
already-staged jobs.  `auth.get_user_by_email` is an external service,
passed in as a lookup function. -/

/-- `Config.JOB_EXPIRATION_DAYS` default (line 123). -/
def JOB_EXPIRATION_DAYS : Int := 30

/-- `Config.FIREBASE_BATCH_SIZE` (line 132). -/
def FIREBASE_BATCH_SIZE : Nat := 200

/-- A document of the `jobs` collection.  `postedAt` is never written by
`add_job_and_match_batch`; it can be present on documents written by other
components.  Its encoding is three-state: `none` = field absent (reading
it raises `KeyError`), `some none` = explicit null (reads as `None`,
falsy), `some (some d)` = a timestamp at day `d`. -/
structure JobDoc where
  title : Str := []
  company : Str := []
  location : Str := []
  url : Str := []
  expiresAt : Int := 0
  source : Str := []
  tags : List Str := []
  salary : Option Str := none
  description : Str := []
  requirements : List Str := []
  seniority : Str := []
  matchScore : Nat := 0
  scrapedAt : Int := 0
  postedAt : Option (Option Int) := none
deriving DecidableEq

/-- A document of the `user_job_matches` collection. -/
structure MatchDoc where
  userId : Str
  jobId : Str
  matchScore : Nat
  matchReasons : List Str
  matchedKeywords : List Str
  notifiedAt : Int
  viewed : Bool := false
  saved : Bool := false
  applied : Bool := false
  createdAt : Int := 0
deriving DecidableEq

/-- The persisted store: `jobs` and `user_job_matches`, keyed by document id. -/
structure Store where
  jobs : List (Str × JobDoc) := []
  user_job_matches : List (Str × MatchDoc) := []
deriving DecidableEq

/-- `doc_ref.get()`: look a document up by id. -/
def lookupDoc {α : Type} (l : List (Str × α)) (k : Str) : Option α :=
  (l.find? (fun p => p.1 == k)).map (fun p => p.2)

/-- `batch.set(ref, data)` landing on a collection: replace the document
with this id, or append it. -/
def setDoc {α : Type} : List (Str × α) → Str → α → List (Str × α)
  | [], k, v => [(k, v)]
  | (k', v') :: rest, k, v =>
    if k' == k then (k, v) :: rest else (k', v') :: setDoc rest k v

/-- `FirebaseManager.generate_job_id` (lines 1262-1265):
`md5(f"{company.lower()}:{title.lower()}".encode()).hexdigest()[:16]`.
The location is not part of the key. -/
def generate_job_id (company title : Str) : Str :=
  (md5hex (lower company ++ ':' :: lower title)).take 16

/-- `FirebaseManager.check_job_exists` (lines 1267-1295), returning the
result together with the possibly grown `job_id_cache`.  When the document
has no `postedAt` field at all, `doc.get('postedAt')` raises `KeyError`,
the blanket `except` logs and returns `False` — the `else` branch at lines
1288-1290 (cache and return `True`) is reachable only for a
present-but-null `postedAt`. -/
def check_job_exists (now : Int) (store : Store) (cache : List Str) (job_id : Str) :
    Bool × List Str :=
  if cache.contains job_id then (true, cache)
  else
    match lookupDoc store.jobs job_id with
    | some doc =>
      match doc.postedAt with
      | none => (false, cache)
      | some posted_at =>
        match posted_at with
        | some p =>
          if now - p < JOB_EXPIRATION_DAYS then (true, job_id :: cache)
          else (false, cache)
        | none => (true, job_id :: cache)
    | none => (false, cache)

/-- The job dict staged at lines 1324-1339 (no `postedAt` field). -/
def mkJobDoc (job : Job) (score_data : ScoreResult) (now : Int) : JobDoc :=
  { title := job.title, company := job.company,
    location := job.location.getD "Not specified".toList, url := job.link,
    expiresAt := now + JOB_EXPIRATION_DAYS, source := job.source,
    tags := score_data.flags, salary := job.salary,
    description := job.description.getD [], requirements := job.requirements.getD [],
    seniority := score_data.seniority, matchScore := score_data.score,
    scrapedAt := now, postedAt := none }

/-- The match dict staged at lines 1347-1357. -/
def mkMatchDoc (user_id job_id : Str) (score_data : ScoreResult) (now : Int) : MatchDoc :=
  { userId := user_id, jobId := job_id, matchScore := score_data.score,
    matchReasons := score_data.flags, matchedKeywords := score_data.matched_keywords,
    notifiedAt := now, viewed := false, saved := false, applied := false, createdAt := now }

/-- `f"{user_id}_{job_id}"` (line 1346). -/
def matchDocId (user_id job_id : Str) : Str := user_id ++ '_' :: job_id

/-- A staged Firestore batch write. -/
inductive WriteOp
  | wjob (id : Str) (d : JobDoc)
  | wmatch (id : Str) (d : MatchDoc)
deriving DecidableEq

/-- Apply one committed write.  A job write merges: every staged field except
`postedAt` overwrites, `postedAt` (absent from the staged dict) survives. -/
def applyWrite (s : Store) : WriteOp → Store
  | .wjob id d =>
    let merged :=
      match lookupDoc s.jobs id with
      | some old => { d with postedAt := old.postedAt }
      | none => d
    { s with jobs := setDoc s.jobs id merged }
  | .wmatch id d => { s with user_job_matches := setDoc s.user_job_matches id d }

/-- `batch.commit()`: apply the staged writes in order. -/
def commitBatch (s : Store) (staged : List WriteOp) : Store :=
  staged.foldl applyWrite s

/-- One `(job, score_data, email)` element of `jobs_with_scores`. -/
structure Entry where
  job : Job
  score : ScoreResult
  email : Str
deriving DecidableEq

/-- The loop state of `add_job_and_match_batch`. -/
structure BatchState where
  store : Store
  cache : List Str
  staged : List WriteOp
  batch_count : Nat
  successes : Nat
deriving DecidableEq

/-- The body of the `for job, score_data, email in jobs_with_scores` loop
(lines 1311-1365). -/
def processEntry (lookup : Str → Option Str) (now : Int) (st : BatchState) (e : Entry) :
    BatchState :=
  match lookup e.email with
  | none => st
  | some user_id =>
    let job_id := generate_job_id e.job.company e.job.title
    let ex := check_job_exists now st.store st.cache job_id
    if ex.1 then { st with cache := ex.2 }
    else
      let st' : BatchState :=
        { store := st.store, cache := job_id :: ex.2,
          staged := st.staged ++ [WriteOp.wjob job_id (mkJobDoc e.job e.score now),
            WriteOp.wmatch (matchDocId user_id job_id) (mkMatchDoc user_id job_id e.score now)],
          batch_count := st.batch_count + 1, successes := st.successes + 1 }
      if FIREBASE_BATCH_SIZE ≤ st'.batch_count then
        { st' with store := commitBatch st'.store st'.staged, staged := [], batch_count := 0 }
      else st'

/-- The outcome of one `add_job_and_match_batch` call. -/
structure BatchResult where
  store : Store
  cache : List Str
  successes : Nat
deriving DecidableEq

/-- `FirebaseManager.add_job_and_match_batch` (lines 1297-1379). -/
def add_job_and_match_batch (lookup : Str → Option Str) (now : Int)
    (store : Store) (cache : List Str) (entries : List Entry) : BatchResult :=
  let st := entries.foldl (processEntry lookup now)
    { store := store, cache := cache, staged := [], batch_count := 0, successes := 0 }
  let finalStore := if 0 < st.batch_count then commitBatch st.store st.staged else st.store
  { store := finalStore, cache := st.cache, successes := st.successes }

/-! ## Helper lemmas -/

/-- If some negative keyword in the list hits the title, the negative-keyword
loop rejects. -/
theorem negCheck_isSome_of_title_hit (title_lower description_lower : Str)
    (negs : List Str) (neg : Str) (hmem : neg ∈ negs)
    (hsub : isSubstr (pystrip (lower neg)) title_lower = true) :
    (negCheck title_lower description_lower negs).isSome = true := by
  induction negs with
  | nil => cases hmem
  | cons n rest ih =>
    rcases List.mem_cons.mp hmem with h | h
    · subst h
      simp [negCheck, negCheckOne, hsub]
    · unfold negCheck
      cases hone : negCheckOne title_lower description_lower n with
      | some r => rfl
      | none => exact ih h

/-- A negative-keyword hit makes `scoreRest` reject. -/
theorem scoreRest_rejected_of_negCheck (job : Job) (profile : Profile)
    (title_lower location_lower description_lower : Str)
    (detected_seniority : Str) (days_ago : Int) (kwres : KwRes)
    (h : (negCheck title_lower description_lower profile.excludeKeywords).isSome = true) :
    (scoreRest job profile title_lower location_lower description_lower
      detected_seniority days_ago kwres).rejected = true := by
  unfold scoreRest
  cases hn : negCheck title_lower description_lower profile.excludeKeywords with
  | some r => simp only [hn]
  | none => rw [hn] at h; cases h

/-! ## Concrete instances used by witnesses and counterexamples -/

/-- A well-located posting whose title matches no keyword of `c3Profile`. -/
def c3Job : Job :=
  { title := "Senior Product Manager".toList, company := "Google".toList,
    location := some "San Francisco, CA".toList, description := some [],
    requirements := some [] }

/-- A profile whose single keyword appears nowhere in `c3Job`. -/
def c3Profile : Profile :=
  { keywords := ["quantum chemist".toList], seniority := ["senior".toList] }

/-- An engineering-titled posting (C4). -/
def c4Job : Job :=
  { title := "Senior Software Engineer".toList, company := "Acme".toList,
    location := some "Remote".toList, description := some [], requirements := some [] }

/-- A profile whose keyword matches the engineering title (C4). -/
def c4Profile : Profile := { keywords := ["engineer".toList] }

/-- Scenario D posting (C4 witness). -/
def c4dJob : Job :=
  { title := "Group Product Manager".toList, company := "Acme".toList,
    location := some "Remote".toList, description := some [] }

/-- Scenario D profile: keyword "product manager", excluded "manager". -/
def c4dProfile : Profile :=
  { keywords := ["product manager".toList], excludeKeywords := ["manager".toList] }

/-- Scenario A posting (C6): unlisted posting fields are neutral — an
untier-ed company, empty description and requirements, no salary, no
timestamp. -/
def scenarioAJob : Job :=
  { title := "Senior Product Manager".toList, company := "Acme".toList,
    location := some "San Francisco, CA".toList, description := some [],
    requirements := some [] }

/-- Scenario A profile (C6): only keywords and seniority targets set. -/
def scenarioAProfile : Profile :=
  { keywords := ["product manager".toList], seniority := ["senior".toList] }

/-! ## Claim theorems -/

/-- C5 (confirmed).  Exclusion precedence in the location gate: a location
segment containing an excluded-region term as a substring never passes
`check_segment`, regardless of any allow-term substring or state code it
also contains.  (The verbatim remote-term shortcut cannot fire, since no
remote term contains an excluded term.) -/
theorem C5_exclusion_precedence (seg : Str)
    (h : EXCLUDED_LOCATIONS.any (fun e => isSubstr e seg) = true) :
    check_segment seg = false := by
  unfold check_segment
  cases hr : remote_terms.any (fun term => term == seg) with
  | true =>
    exfalso
    rcases List.any_eq_true.mp hr with ⟨t, ht, heq⟩
    have hseg : t = seg := eq_of_beq heq
    subst hseg
    revert h
    simp only [remote_terms, List.map, List.mem_cons, List.not_mem_nil, or_false,
      String.toList] at ht
    rcases ht with h | h | h | h | h | h | h | h <;> subst h <;> decide
  | false =>
    simp [h]

/-- C5 witness: a segment containing the excluded term `berlin`, the
allow term `san francisco` and the state code `ca` is still rejected. -/
theorem C5_witness :
    EXCLUDED_LOCATIONS.any (fun e => isSubstr e "berlin or san francisco, ca".toList) = true ∧
    check_segment "berlin or san francisco, ca".toList = false :=
  ⟨by decide, C5_exclusion_precedence "berlin or san francisco, ca".toList (by decide)⟩

/-- C3 (confirmed).  Keyword necessity: when the keyword loop matches no
profile keyword against title, description or requirements, the result
is rejected, regardless of location, seniority or company. -/
theorem C3_keyword_necessity (job : Job) (profile : Profile)
    (h : (kwFold (lower job.title) (lower (job.description.getD []))
      (lower (joinSpace (job.requirements.getD []))) profile.keywords).matched_keywords = []) :
    (calculate_score job profile).rejected = true := by
  unfold calculate_score
  split
  · rfl
  · simp [h, rejectNoKeyword]

/-- C3 witness: a profile keyword matching nothing in a well-located,
well-titled posting still forces rejection. -/
theorem C3_witness :
    (kwFold (lower c3Job.title) (lower (c3Job.description.getD []))
      (lower (joinSpace (c3Job.requirements.getD []))) c3Profile.keywords).matched_keywords
        = [] ∧
    (calculate_score c3Job c3Profile).rejected = true :=
  ⟨by decide, C3_keyword_necessity c3Job c3Profile (by decide)⟩

/-- C4 counterexample.  `calculate_score` has no fixed hard-block
title-category gate: the title "Senior Software Engineer" contains the
engineering role noun "software engineer", yet with a profile whose
keyword "engineer" matches, the posting is accepted, not rejected. -/
theorem C4_counterexample :
    isSubstr "software engineer".toList (lower c4Job.title) = true ∧
    (calculate_score c4Job c4Profile).rejected = false ∧
    (calculate_score c4Job c4Profile).score = 45 := by
  refine ⟨by decide, by decide, by decide⟩

/-- C4 (corrected).  The only title-level hard block is the profile's own
`excludeKeywords` list: if any excluded keyword occurs in the lowercased
title, the result is rejected no matter how many profile keywords also
match title or description. -/
theorem C4_exclude_keyword_blocks_title (job : Job) (profile : Profile) (neg : Str)
    (hmem : neg ∈ profile.excludeKeywords)
    (hsub : isSubstr (pystrip (lower neg)) (lower job.title) = true) :
    (calculate_score job profile).rejected = true := by
  simp only [calculate_score]
  split
  · rfl
  · split
    · rfl
    · exact scoreRest_rejected_of_negCheck _ _ _ _ _ _ _ _
        (negCheck_isSome_of_title_hit _ _ _ neg hmem hsub)

/-- C4 witness: Scenario D — "Group Product Manager" with
`excludeKeywords = ["manager"]` is rejected although "product manager"
matches as an exact keyword phrase. -/
theorem C4_witness :
    "manager".toList ∈ c4dProfile.excludeKeywords ∧
    isSubstr (pystrip (lower "manager".toList)) (lower c4dJob.title) = true ∧
    (calculate_score c4dJob c4dProfile).rejected = true :=
  ⟨by decide, by decide,
    C4_exclude_keyword_blocks_title c4dJob c4dProfile "manager".toList (by decide) (by decide)⟩

/-- C6 (confirmed).  Scenario A: "Senior Product Manager" in
"San Francisco, CA", no salary, no timestamp, against a profile with
keywords ["product manager"] and seniority targets ["senior"], is
accepted with score exactly 70 (so at least 70). -/
theorem C6_scenario_a :
    (calculate_score scenarioAJob scenarioAProfile).rejected = false ∧
    70 ≤ (calculate_score scenarioAJob scenarioAProfile).score := by
  refine ⟨by decide, by decide⟩

/-- `wait` never changes the configured delay. -/
theorem wait_delay (rl : RateLimiter) (now j : ℚ) : (rl.wait now j).delay = rl.delay := by
  simp only [RateLimiter.wait]
  split <;> rfl

/-- Lower bound on the gap between two consecutive grants: at least
`0.9 * delay`, for any jitter draw of at least `0.9` and any issue
instant not before the previous grant. -/
theorem wait_gap (rl : RateLimiter) (now j : ℚ) (hd : 0 ≤ rl.delay)
    (hnow : rl.last_call ≤ now) (hj : 9 / 10 ≤ j) :
    rl.last_call + 9 / 10 * rl.delay ≤ (rl.wait now j).last_call := by
  simp only [RateLimiter.wait]
  split
  · rename_i hlt
    have h1 : 0 ≤ rl.delay - (now - rl.last_call) := by linarith
    have h2 : (rl.delay - (now - rl.last_call)) * (9 / 10) ≤
        (rl.delay - (now - rl.last_call)) * j :=
      mul_le_mul_of_nonneg_left hj h1
    show rl.last_call + 9 / 10 * rl.delay ≤ now + (rl.delay - (now - rl.last_call)) * j
    linarith
  · rename_i hge
    have hd2 : rl.delay ≤ now - rl.last_call := not_lt.mp hge
    show rl.last_call + 9 / 10 * rl.delay ≤ now
    linarith

/-- C7 counterexample.  The jitter multiplies the remaining wait by a draw
from `uniform(0.9, 1.1)`, so consecutive grants can be only `0.9 / R`
apart: with `R = 1`, a grant at time 5 followed by an immediate call with
jitter draw `0.9` is granted at `5.9`, a gap strictly below `1 / R = 1`. -/
theorem C7_counterexample :
    validCalls (RateLimiter.init 1) [(5, 1), (5, 9 / 10)] = true ∧
    (runWaits (RateLimiter.init 1) [(5, 1), (5, 9 / 10)]).last_call -
      (runWaits (RateLimiter.init 1) [(5, 1)]).last_call < 1 / 1 := by
  constructor
  · norm_num [validCalls, RateLimiter.wait, RateLimiter.init]
  · norm_num [runWaits, RateLimiter.wait, RateLimiter.init]

/-- C7 (corrected).  Rate bound with a `0.9` jitter factor: starting from a
grant at `rl.last_call`, any `validCalls` trace of `n` further `wait`
calls ends with a grant at least `n * (0.9 * delay)` later, for every
outcome of the jitter.  With `delay = 1/R` and `n = N - 1` this bounds
the span of `N` grants below by `0.9 * (N - 1) / R`. -/
theorem C7_rate_bound (rl : RateLimiter) (calls : List (ℚ × ℚ))
    (hd : 0 ≤ rl.delay) (hv : validCalls rl calls = true) :
    rl.last_call + calls.length * (9 / 10 * rl.delay) ≤ (runWaits rl calls).last_call := by
  induction calls generalizing rl with
  | nil => simp [runWaits]
  | cons c cs ih =>
    have hv' := hv
    unfold validCalls at hv'
    simp only [Bool.and_eq_true, decide_eq_true_eq] at hv'
    obtain ⟨⟨⟨hnow, hj⟩, _⟩, hrest⟩ := hv'
    have hgap := wait_gap rl c.1 c.2 hd hnow hj
    have hdelay' : (rl.wait c.1 c.2).delay = rl.delay := wait_delay rl c.1 c.2
    have htail := ih (rl.wait c.1 c.2) (by rw [hdelay']; exact hd) hrest
    rw [hdelay'] at htail
    have hrun : runWaits rl (c :: cs) = runWaits (rl.wait c.1 c.2) cs := rfl
    rw [hrun]
    have hlen : ((c :: cs).length : ℚ) = (cs.length : ℚ) + 1 := by
      push_cast [List.length_cons]
      ring
    rw [hlen]
    nlinarith

/-- C7 witness: `R = 1`, previous grant at 0, two further calls. -/
theorem C7_witness :
    (0 : ℚ) ≤ (RateLimiter.init 1).delay ∧
    validCalls (RateLimiter.init 1) [(5, 1), (5, 9 / 10)] = true ∧
    (RateLimiter.init 1).last_call +
      ([((5 : ℚ), (1 : ℚ)), (5, 9 / 10)].length : ℚ) * (9 / 10 * (RateLimiter.init 1).delay) ≤
      (runWaits (RateLimiter.init 1) [(5, 1), (5, 9 / 10)]).last_call :=
  ⟨by norm_num [RateLimiter.init], by norm_num [validCalls, RateLimiter.wait, RateLimiter.init],
    C7_rate_bound (RateLimiter.init 1) [(5, 1), (5, 9 / 10)]
      (by norm_num [RateLimiter.init])
      (by norm_num [validCalls, RateLimiter.wait, RateLimiter.init])⟩

/-- C8 counterexample.  `record_success` floors the delay at the constant
`0.5` s, not at the configured base `1 / R`: with `R = 1` (base delay 1),
one error followed by one success leaves the delay at `0.9 < 1`. -/
theorem C8_counterexample :
    (RateLimiter.init 1).delay = 1 / 1 ∧
    (runEvents (RateLimiter.init 1) [RLEvent.err, RLEvent.succ]).delay < 1 / 1 := by
  constructor
  · norm_num [RateLimiter.init]
  · norm_num [runEvents, RateLimiter.event, RateLimiter.record_error,
      RateLimiter.record_success, RateLimiter.init]

/-- One recorded event keeps the delay above any floor `m` with
`0 ≤ m ≤ 1/2`. -/
theorem event_delay_floor (m : ℚ) (rl : RateLimiter) (ev : RLEvent)
    (hm0 : 0 ≤ m) (hm : m ≤ 1 / 2) (h : m ≤ rl.delay) : m ≤ (rl.event ev).delay := by
  cases ev with
  | err =>
    simp only [RateLimiter.event, RateLimiter.record_error]
    split
    · simp only [le_min_iff]
      constructor
      · nlinarith
      · linarith
    · exact h
  | succ =>
    simp only [RateLimiter.event, RateLimiter.record_success]
    split
    · simp only [le_max_iff]
      right
      linarith
    · exact h

/-- C8 (corrected).  For every sequence of `record_error` / `record_success`
calls, the delay never drops below `min (1 / R) (1 / 2)`: the
`record_success` recovery floor is the constant `0.5` s, which is the
configured base only when `R ≥ 2`. -/
theorem C8_delay_floor (R : ℚ) (hR : 0 < R) (evs : List RLEvent) :
    min (1 / R) (1 / 2) ≤ (runEvents (RateLimiter.init R) evs).delay := by
  have hm0 : (0 : ℚ) ≤ min (1 / R) (1 / 2) := by
    apply le_min
    · positivity
    · norm_num
  have hm : min (1 / R) (1 / 2) ≤ 1 / 2 := min_le_right _ _
  have hstart : min (1 / R) (1 / 2) ≤ (RateLimiter.init R).delay := by
    simpa [RateLimiter.init] using min_le_left (1 / R) (1 / 2)
  generalize hrl : RateLimiter.init R = rl at hstart
  clear hrl
  induction evs generalizing rl with
  | nil => simpa [runEvents] using hstart
  | cons ev rest ih =>
    have : runEvents rl (ev :: rest) = runEvents (rl.event ev) rest := rfl
    rw [this]
    exact ih _ (event_delay_floor _ rl ev hm0 hm hstart)

/-- C8 witness: `R = 4`, one error then one success; the delay ends at
`1/2 ≥ min (1/4) (1/2)`. -/
theorem C8_witness :
    (0 : ℚ) < 4 ∧
    min (1 / (4 : ℚ)) (1 / 2) ≤ (runEvents (RateLimiter.init 4) [RLEvent.err, RLEvent.succ]).delay :=
  ⟨by norm_num, C8_delay_floor 4 (by norm_num) [RLEvent.err, RLEvent.succ]⟩

/-- Two postings identical except for location (C2). -/
def c2JobNY : Job :=
  { title := "Product Manager".toList, company := "Acme".toList,
    location := some "New York".toList }

/-- The Berlin twin of `c2JobNY` (C2). -/
def c2JobBerlin : Job :=
  { title := "Product Manager".toList, company := "Acme".toList,
    location := some "Berlin".toList }

/-- C2 (code_bug).  `generate_job_id` hashes only the lowercased company and
title, joined by `:` — the location is not an argument, so the two
postings above, which differ only in location, receive the same id
(`md5("acme:product manager")[:16]`), contradicting the spec's
location-inclusive dedup key. -/
theorem C2_job_id_ignores_location :
    c2JobNY.location ≠ c2JobBerlin.location ∧
    generate_job_id c2JobNY.company c2JobNY.title =
      generate_job_id c2JobBerlin.company c2JobBerlin.title ∧
    generate_job_id c2JobNY.company c2JobNY.title = "d3c72c22bdf4a8bb".toList := by
  refine ⟨by decide, by decide, by decide⟩

/-- An Ashby posting normalized without any timestamp (C9). -/
def ashbyNoTimestampJob : Job :=
  normalize_ashby "Product Manager".toList (some "Remote".toList) "http://x".toList
    "Acme".toList [] [] none

/-- C9 (code_bug).  Absent timestamps are normalized to age 0, not to the
999 sentinel: `_fetch_ashby` hard-codes `posted_days_ago = 0` although
Ashby provides no posting date, `_fetch_greenhouse` leaves its default 0
when `updated_at` is missing, and the scorer then reads 0 and awards the
maximal "Just Posted" freshness bonus.  The 999 sentinel of
`_safe_get_days_ago` only applies when the key itself is missing. -/
theorem C9_absent_timestamp_scored_as_just_posted :
    ashbyNoTimestampJob.posted_days_ago = some 0 ∧
    safe_get_days_ago ashbyNoTimestampJob = 0 ∧
    greenhouse_posted_days_ago none 100 = 0 ∧
    (calculate_score ashbyNoTimestampJob
        { keywords := ["product manager".toList] }).flags.contains
      "🔥 Just Posted".toList = true ∧
    safe_get_days_ago { title := [], company := [] } = 999 := by
  refine ⟨by decide, by decide, by decide, by decide, by decide⟩

/-! ## Store well-formedness and the persistence claims -/

/-- Number of documents in a collection carrying the id `k`. -/
def countKey {α : Type} (l : List (Str × α)) (k : Str) : Nat :=
  (l.filter (fun p => p.1 == k)).length

/-- The document ids of a collection are pairwise distinct. -/
def keysNodup {α : Type} (l : List (Str × α)) : Prop := (l.map Prod.fst).Nodup

/-- Well-formed store: both collections are keyed by distinct document ids. -/
def StoreWF (s : Store) : Prop := keysNodup s.jobs ∧ keysNodup s.user_job_matches

instance {α : Type} (l : List (Str × α)) : Decidable (keysNodup l) := by
  unfold keysNodup; infer_instance

instance (s : Store) : Decidable (StoreWF s) := by
  unfold StoreWF; infer_instance

/-- Keys after `setDoc` come from the written key or the old keys. -/
theorem mem_keys_setDoc {α : Type} (l : List (Str × α)) (k : Str) (v : α) (a : Str)
    (h : a ∈ (setDoc l k v).map Prod.fst) : a = k ∨ a ∈ l.map Prod.fst := by
  induction l with
  | nil =>
    simp only [setDoc, List.map_cons, List.map_nil, List.mem_singleton] at h
    exact Or.inl h
  | cons p rest ih =>
    obtain ⟨k', v'⟩ := p
    simp only [setDoc] at h
    split at h
    · simp only [List.map_cons, List.mem_cons] at h ⊢
      tauto
    · simp only [List.map_cons, List.mem_cons] at h ⊢
      rcases h with h | h
      · tauto
      · rcases ih h with h | h <;> tauto

/-- `setDoc` keeps document ids pairwise distinct. -/
theorem keysNodup_setDoc {α : Type} (l : List (Str × α)) (k : Str) (v : α)
    (h : keysNodup l) : keysNodup (setDoc l k v) := by
  induction l with
  | nil => simp [setDoc, keysNodup]
  | cons p rest ih =>
    obtain ⟨k', v'⟩ := p
    simp only [keysNodup, List.map_cons, List.nodup_cons] at h
    obtain ⟨hnotmem, hrest⟩ := h
    simp only [keysNodup, setDoc]
    split
    · rename_i hbeq
      have hkk : k' = k := eq_of_beq hbeq
      subst hkk
      simp only [List.map_cons, List.nodup_cons]
      exact ⟨hnotmem, hrest⟩
    · rename_i hbeq
      have hne : k' ≠ k := fun hh => hbeq (hh ▸ beq_self_eq_true k')
      simp only [List.map_cons, List.nodup_cons]
      refine ⟨fun hmem => ?_, ih hrest⟩
      rcases mem_keys_setDoc rest k v k' hmem with h | h
      · exact hne h
      · exact hnotmem h

/-- A collection with distinct ids holds at most one document per id. -/
theorem countKey_le_one {α : Type} (l : List (Str × α)) (k : Str)
    (h : keysNodup l) : countKey l k ≤ 1 := by
  induction l with
  | nil => simp [countKey]
  | cons p rest ih =>
    obtain ⟨k', v'⟩ := p
    simp only [keysNodup, List.map_cons, List.nodup_cons] at h
    obtain ⟨hnotmem, hrest⟩ := h
    simp only [countKey, List.filter_cons]
    split
    · rename_i hbeq
      have hkk : k' = k := eq_of_beq hbeq
      subst hkk
      have hzero : countKey rest k' = 0 := by
        simp only [countKey, List.length_eq_zero, List.filter_eq_nil_iff]
        intro p hp hbeq2
        exact hnotmem (eq_of_beq hbeq2 ▸ List.mem_map_of_mem Prod.fst hp)
      simp only [countKey] at hzero
      simp [hzero]
    · exact ih hrest

/-- Committed writes keep both collections keyed by distinct ids. -/
theorem StoreWF_applyWrite (s : Store) (op : WriteOp) (h : StoreWF s) :
    StoreWF (applyWrite s op) := by
  cases op with
  | wjob id d =>
    simp only [applyWrite, StoreWF]
    exact ⟨keysNodup_setDoc _ _ _ h.1, h.2⟩
  | wmatch id d =>
    simp only [applyWrite, StoreWF]
    exact ⟨h.1, keysNodup_setDoc _ _ _ h.2⟩

/-- Committing a batch keeps the store well-formed. -/
theorem StoreWF_commitBatch (staged : List WriteOp) (s : Store) (h : StoreWF s) :
    StoreWF (commitBatch s staged) := by
  induction staged generalizing s with
  | nil => exact h
  | cons op rest ih => exact ih _ (StoreWF_applyWrite s op h)

/-- `commitBatch` over appended write lists commits them in order. -/
theorem commitBatch_append (s : Store) (a b : List WriteOp) :
    commitBatch s (a ++ b) = commitBatch (commitBatch s a) b :=
  List.foldl_append _ _ _ _

/-- Unfolding lemma: committing a first write. -/
theorem commitBatch_cons (s : Store) (op : WriteOp) (rest : List WriteOp) :
    commitBatch s (op :: rest) = commitBatch (applyWrite s op) rest := rfl

/-- Unfolding lemma: committing nothing. -/
theorem commitBatch_nil (s : Store) : commitBatch s [] = s := rfl

/-- The batch-loop invariant: the visible store is well-formed, and so is
the store obtained by committing the currently staged writes. -/
def BatchWF (st : BatchState) : Prop :=
  StoreWF st.store ∧ StoreWF (commitBatch st.store st.staged)

/-- One loop iteration of `add_job_and_match_batch` preserves `BatchWF`. -/
theorem BatchWF_processEntry (lookup : Str → Option Str) (now : Int)
    (st : BatchState) (e : Entry) (h : BatchWF st) :
    BatchWF (processEntry lookup now st e) := by
  unfold processEntry
  cases hl : lookup e.email with
  | none => exact h
  | some uid =>
    simp only
    split
    · exact h
    · have hstaged : StoreWF (commitBatch st.store (st.staged ++
          [WriteOp.wjob (generate_job_id e.job.company e.job.title)
            (mkJobDoc e.job e.score now),
           WriteOp.wmatch (matchDocId uid (generate_job_id e.job.company e.job.title))
            (mkMatchDoc uid (generate_job_id e.job.company e.job.title) e.score now)])) := by
        rw [commitBatch_append, commitBatch_cons, commitBatch_cons, commitBatch_nil]
        exact StoreWF_applyWrite _ _ (StoreWF_applyWrite _ _ h.2)
      split
      · exact ⟨hstaged, hstaged⟩
      · exact ⟨h.1, hstaged⟩

/-- The whole loop preserves `BatchWF`. -/
theorem BatchWF_foldl (lookup : Str → Option Str) (now : Int)
    (entries : List Entry) (st : BatchState) (h : BatchWF st) :
    BatchWF (entries.foldl (processEntry lookup now) st) := by
  induction entries generalizing st with
  | nil => exact h
  | cons e rest ih => exact ih _ (BatchWF_processEntry lookup now st e h)

/-- A batch call keeps the store well-formed. -/
theorem StoreWF_batch (lookup : Str → Option Str) (now : Int)
    (store : Store) (cache : List Str) (entries : List Entry) (h : StoreWF store) :
    StoreWF (add_job_and_match_batch lookup now store cache entries).store := by
  unfold add_job_and_match_batch
  have hfold := BatchWF_foldl lookup now entries
    { store := store, cache := cache, staged := [], batch_count := 0, successes := 0 }
    ⟨h, h⟩
  simp only
  split
  · exact hfold.2
  · exact hfold.1

/-- C1 (confirmed).  Idempotent ingestion: whatever two batches are pushed
through `add_job_and_match_batch` — in particular two batches carrying
entries with identical `(company, title, location)` and the same user —
a well-formed store afterwards holds at most one job document under that
posting's id and at most one match document under that (user, job) pair:
ids are deterministic and `batch.set` is an upsert by document id. -/
theorem C1_idempotent_ingestion (store : Store) (cache : List Str)
    (lookup : Str → Option Str) (now1 now2 : Int) (e1 e2 : List Entry)
    (c t l u uid : Str) (hwf : StoreWF store)
    (h1 : ∃ x ∈ e1, x.job.company = c ∧ x.job.title = t ∧
      x.job.location = some l ∧ x.email = u)
    (h2 : ∃ x ∈ e2, x.job.company = c ∧ x.job.title = t ∧
      x.job.location = some l ∧ x.email = u) :
    countKey (add_job_and_match_batch lookup now2
        (add_job_and_match_batch lookup now1 store cache e1).store
        (add_job_and_match_batch lookup now1 store cache e1).cache e2).store.jobs
      (generate_job_id c t) ≤ 1 ∧
    countKey (add_job_and_match_batch lookup now2
        (add_job_and_match_batch lookup now1 store cache e1).store
        (add_job_and_match_batch lookup now1 store cache e1).cache e2).store.user_job_matches
      (matchDocId uid (generate_job_id c t)) ≤ 1 := by
  have hwf1 := StoreWF_batch lookup now1 store cache e1 hwf
  have hwf2 := StoreWF_batch lookup now2
    (add_job_and_match_batch lookup now1 store cache e1).store
    (add_job_and_match_batch lookup now1 store cache e1).cache e2 hwf1
  exact ⟨countKey_le_one _ _ hwf2.1, countKey_le_one _ _ hwf2.2⟩

/-- The posting ingested twice in the C1 witness. -/
def c1Job : Job :=
  { title := "Product Manager".toList, company := "Acme".toList,
    location := some "New York".toList, link := "http://x".toList,
    source := "Greenhouse".toList }

/-- The accepted score attached to the C1 witness posting. -/
def c1Score : ScoreResult :=
  { score := 70, flags := [], seniority := "senior".toList, matched_keywords := [],
    location_match := true, days_ago := 1, rejected := false }

/-- The batch entry ingested twice in the C1 witness. -/
def c1Entry : Entry := { job := c1Job, score := c1Score, email := "a@b.com".toList }

/-- The auth lookup of the C1 witness. -/
def c1Lookup : Str → Option Str :=
  fun e => if e == "a@b.com".toList then some "u1".toList else none

/-- C1 witness: the same `(Acme, Product Manager, New York)` entry ingested
in two consecutive batch calls from an empty store. -/
theorem C1_witness :
    StoreWF {} ∧
    (∃ x ∈ [c1Entry], x.job.company = "Acme".toList ∧
      x.job.title = "Product Manager".toList ∧
      x.job.location = some "New York".toList ∧ x.email = "a@b.com".toList) ∧
    (countKey (add_job_and_match_batch c1Lookup 1
        (add_job_and_match_batch c1Lookup 0 {} [] [c1Entry]).store
        (add_job_and_match_batch c1Lookup 0 {} [] [c1Entry]).cache [c1Entry]).store.jobs
      (generate_job_id "Acme".toList "Product Manager".toList) ≤ 1 ∧
    countKey (add_job_and_match_batch c1Lookup 1
        (add_job_and_match_batch c1Lookup 0 {} [] [c1Entry]).store
        (add_job_and_match_batch c1Lookup 0 {} [] [c1Entry]).cache
          [c1Entry]).store.user_job_matches
      (matchDocId "u1".toList (generate_job_id "Acme".toList "Product Manager".toList)) ≤ 1) :=
  ⟨by decide, by decide,
    C1_idempotent_ingestion {} [] c1Lookup 0 1 [c1Entry] [c1Entry]
      "Acme".toList "Product Manager".toList "New York".toList "a@b.com".toList "u1".toList
      (by decide) (by decide) (by decide)⟩

/-- The auth lookup of the first C10 run: the posting matched user `u1`. -/
def c10Lookup1 : Str → Option Str := fun _ => some "u1".toList

/-- The auth lookup of the second C10 run: a fresh user `u2` with no
existing match for the job. -/
def c10Lookup2 : Str → Option Str := fun _ => some "u2".toList

/-- The job id of the C10 posting. -/
def c10JobId : Str := generate_job_id "Acme".toList "Product Manager".toList

/-- First run: ingest the posting for `u1` into an empty store. -/
def c10run1 : BatchResult := add_job_and_match_batch c10Lookup1 100 {} [] [c1Entry]

/-- Second run, later the same day: a fresh `FirebaseManager` (empty
in-memory `job_id_cache`), the same posting, scored for user `u2`. -/
def c10run2 : BatchResult := add_job_and_match_batch c10Lookup2 100 c10run1.store [] [c1Entry]

/-- C10 (code_bug).  Re-ingestion of the engine's own unexpired job
documents is not skipped.  After the first run the job document for
`(Acme, Product Manager)` sits in the store, written moments ago
(`scrapedAt = 100`, `expiresAt = 130 > 100`) — unexpired by any reading —
but it carries no `postedAt` field, because `add_job_and_match_batch`
never stages one.  On the next run (fresh in-memory cache),
`doc.get('postedAt')` raises `KeyError`, the blanket `except` turns the
existence check into `False`, the entry is processed instead of skipped,
and a `MatchRecord` is written for user `u2`, who had none.  This
contradicts the claim (and spec Scenario E); `cleanup_db.py` exists to
mop up exactly these duplicates ("missing postedAt entirely (bad data)",
step 3 deduplicating jobs sharing the same company and title). -/
theorem C10_reingestion_writes_new_match :
    (lookupDoc c10run1.store.jobs c10JobId).map (fun d => d.expiresAt) = some 130 ∧
    (lookupDoc c10run1.store.jobs c10JobId).map (fun d => d.scrapedAt) = some 100 ∧
    (lookupDoc c10run1.store.jobs c10JobId).map (fun d => d.postedAt) = some none ∧
    (check_job_exists 100 c10run1.store [] c10JobId).1 = false ∧
    countKey c10run1.store.user_job_matches (matchDocId "u2".toList c10JobId) = 0 ∧
    countKey c10run2.store.user_job_matches (matchDocId "u2".toList c10JobId) = 1 ∧
    c10run2.successes = 1 := by
  refine ⟨by decide, by decide, by decide, by decide, by decide, by decide, by decide⟩

end JobHunt
